import Mathlib

/-!
Verification development for the dice-roll core and attack state machines of a
tabletop-RPG chat bot.

The definitions below are a shallow embedding of the Python source:
  cogs/CogRoll.py    : parse_roll, roll_dice, create_result_string, the /roll command
  cogs/CogAttacks.py : calc_proficiency_bonus, calc_ability_modifier,
                       the attack-creation view (a wizard) and the
                       attack-resolution confirmation view (a flow).

Conventions of the embedding:
  * Python strings are Lean String / List Char; the character classes of the
    regular expression (backslash-d, backslash-s) are modelled over ASCII
    (decimal digits 0-9 and the six ASCII whitespace characters), which covers
    every input the claims exercise.
  * The regular expression
      (?P<num_dice>\d*)\s*d\s*(?P<dice_type>\d+)\s*(?P<modifier>[+-]\s*\d+)?
    applied with re.match (anchored at the start, trailing text ignored) is
    deterministic: its character classes are pairwise disjoint, so greedy
    maximal-munch scanning never backtracks.  re_match below implements that
    scan and returns the three captures together with the unconsumed rest.
  * Python int(...) applied to a capture is fallible: after the source's
    replace of space characters, whitespace other than a space may remain
    between the sign and the digits, and int then raises ValueError.  Fallible
    paths are modelled with Except Unit; Except.error models an uncaught
    Python exception aborting the call.
  * random.randint(lo, hi) is modelled by an arbitrary family
    randint : Nat -> Nat -> Nat -> Int, where the third argument counts the
    successive draws of one call; theorems that need the randint contract
    (lo <= result <= hi) take it as an explicit hypothesis.
-/

/-- The six ASCII characters matched by the pattern's whitespace class. -/
def isPySpace (c : Char) : Bool :=
  c = ' ' || c = '\t' || c = '\n' || c = '\x0d' || c = '\x0c' || c = '\x0b'

/-- Maximal-munch split: longest leading run satisfying p, and the rest. -/
def spanP (p : Char → Bool) : List Char → List Char × List Char
  | [] => ([], [])
  | c :: cs =>
    if p c then
      let r := spanP p cs
      (c :: r.1, r.2)
    else ([], c :: cs)

/-- Python str.strip(): remove leading and trailing whitespace. -/
def pyStrip (l : List Char) : List Char :=
  ((l.dropWhile isPySpace).reverse.dropWhile isPySpace).reverse

/-- Numeric value of a decimal digit string (Python int on a digit capture). -/
def digitsToNat (l : List Char) : Nat :=
  l.foldl (fun a c => a * 10 + (c.toNat - ('0').toNat)) 0

/-- Python int(s) on the strings this program feeds it: strips whitespace at
both ends, then accepts an optional sign followed immediately by one or more
digits; anything else (such as leftover whitespace after the sign) raises. -/
def pyIntOpt (s : List Char) : Option Int :=
  let t := pyStrip s
  match t with
  | '+' :: rest =>
    if rest ≠ [] ∧ rest.all Char.isDigit then some ((digitsToNat rest : Nat) : Int) else none
  | '-' :: rest =>
    if rest ≠ [] ∧ rest.all Char.isDigit then some (-((digitsToNat rest : Nat) : Int)) else none
  | _ =>
    if t ≠ [] ∧ t.all Char.isDigit then some ((digitsToNat t : Nat) : Int) else none

/-- The three named captures of the roll pattern. -/
structure RollMatch where
  num_dice : List Char
  dice_type : List Char
  modifier : Option (List Char)
deriving DecidableEq

/-- re.match of the roll pattern against a string: returns the captures and
the unconsumed rest of the input, or none when the pattern does not match a
prefix.  The modifier capture keeps the sign, the whitespace after the sign,
and the digits, exactly as the regular expression group does. -/
def re_match (s : List Char) : Option (RollMatch × List Char) :=
  let p1 := spanP Char.isDigit s
  let r1 := p1.2.dropWhile isPySpace
  match r1 with
  | 'd' :: r2 =>
    let p2 := spanP Char.isDigit (r2.dropWhile isPySpace)
    if p2.1 = [] then none
    else
      let r3 := p2.2.dropWhile isPySpace
      match r3 with
      | c :: r4 =>
        if c = '+' || c = '-' then
          let ws := r4.takeWhile isPySpace
          let p3 := spanP Char.isDigit (r4.dropWhile isPySpace)
          if p3.1 = [] then some (⟨p1.1, p2.1, none⟩, r3)
          else some (⟨p1.1, p2.1, some (c :: (ws ++ p3.1))⟩, p3.2)
        else some (⟨p1.1, p2.1, none⟩, r3)
      | [] => some (⟨p1.1, p2.1, none⟩, [])
  | _ => none

/-- valid_dice_types of parse_roll. -/
def valid_dice_types : List Nat := [4, 6, 8, 10, 12, 20, 100]

/-- Message appended when the pattern does not match. -/
def invalid_spec_msg : String :=
  "Invalid dice specification! Example Roll: (1d6+2, 3d 10 - 3)"

/-- Message appended when the faces value is not an allowed dice type. -/
def invalid_type_msg : String :=
  "Invalid dice type! Valid Dice types: [4, 6, 8, 10, 12, 20]"

/-- Outcome of examining a single sub-expression, before any dice are rolled:
either of the two error messages, or an accepted specification carrying the
extracted count, faces, numeric modifier and the raw modifier capture. -/
inductive ParseOutcome where
  | errSpec : ParseOutcome
  | errType : ParseOutcome
  | okSpec (num_dice dice_type : Nat) (modifier : Int)
      (modifier_str : Option (List Char)) : ParseOutcome
deriving DecidableEq

/-- The per-expression part of parse_roll: strip, match, extract the three
fields (count defaulting to 1 when its capture is empty, modifier converted
after removing space characters), then check the dice type.  The conversion
happens before the type check, as in the source; a failed conversion is the
uncaught ValueError. -/
def parse_spec (dice_spec : List Char) : Except Unit ParseOutcome :=
  match re_match (pyStrip dice_spec) with
  | none => Except.ok ParseOutcome.errSpec
  | some (m, _) =>
    let num_dice := if m.num_dice ≠ [] then digitsToNat m.num_dice else 1
    let dice_type := digitsToNat m.dice_type
    match m.modifier with
    | none =>
      if valid_dice_types.contains dice_type then
        Except.ok (ParseOutcome.okSpec num_dice dice_type 0 none)
      else Except.ok ParseOutcome.errType
    | some ms =>
      match pyIntOpt (ms.filter (fun c => c ≠ ' ')) with
      | none => Except.error ()
      | some mo =>
        if valid_dice_types.contains dice_type then
          Except.ok (ParseOutcome.okSpec num_dice dice_type mo (some ms))
        else Except.ok ParseOutcome.errType

/-- roll_dice of CogRoll.py: one random.randint(1, dice_type) draw per die,
sum them, and add the modifier when it is truthy (nonzero). -/
def roll_dice (randint : Nat → Nat → Nat → Int) (num_dice dice_type : Nat)
    (modifier : Int) : List Int × Int :=
  let dice_rolls := (List.range num_dice).map (fun i => randint 1 dice_type i)
  let total := dice_rolls.sum
  let total := if modifier ≠ 0 then total + modifier else total
  (dice_rolls, total)

/-- Python repr of a list of ints, as an f-string renders it. -/
def pyListRepr (l : List Int) : String :=
  "[" ++ String.intercalate ", " (l.map toString) ++ "]"

/-- create_result_string of CogRoll.py.  The modifier_str argument is the raw
capture (or the bonus string in the attack flow); when present it is stripped
at the ends and shown right after the faces, whatever its numeric value. -/
def create_result_string (dice_rolls : List Int) (total : Int)
    (num_dice dice_type : Nat) (modifier : Int)
    (modifier_str : Option (List Char)) : String :=
  let ms := match modifier_str with
    | some s => String.mk (pyStrip s)
    | none => ""
  "You rolled " ++ toString num_dice ++ "d" ++ toString dice_type ++ ms ++ ": "
    ++ pyListRepr dice_rolls ++ " "
    ++ (if 0 ≤ modifier then "+" else "-") ++ " "
    ++ toString modifier.natAbs ++ " = " ++ toString total

/-- Shift the draw counter of a randint family by k: the dice of later
sub-expressions consume later draws of the shared random source. -/
def shiftRand (randint : Nat → Nat → Nat → Int) (k : Nat) :
    Nat → Nat → Nat → Int :=
  fun lo hi i => randint lo hi (k + i)

/-- The loop of parse_roll: one message per sub-expression, in order; an
uncaught conversion error aborts the whole call. -/
def parse_roll_aux (randint : Nat → Nat → Nat → Int) :
    List (List Char) → Nat → Except Unit (List String)
  | [], _ => Except.ok []
  | s :: rest, k =>
    match parse_spec s with
    | Except.error _ => Except.error ()
    | Except.ok ParseOutcome.errSpec =>
      (parse_roll_aux randint rest k).map (fun rs => invalid_spec_msg :: rs)
    | Except.ok ParseOutcome.errType =>
      (parse_roll_aux randint rest k).map (fun rs => invalid_type_msg :: rs)
    | Except.ok (ParseOutcome.okSpec n t mo ms) =>
      let rt := roll_dice (shiftRand randint k) n t mo
      (parse_roll_aux randint rest (k + n)).map
        (fun rs => create_result_string rt.1 rt.2 n t mo ms :: rs)

/-- parse_roll of CogRoll.py over an already split list of sub-expressions. -/
def parse_roll (randint : Nat → Nat → Nat → Int) (dice_specs : List (List Char)) :
    Except Unit (List String) :=
  parse_roll_aux randint dice_specs 0

/-- Python str.split(sep) for a one-character separator: empty pieces are
kept, the empty string yields one empty piece. -/
def pySplit (sep : Char) : List Char → List (List Char)
  | [] => [[]]
  | c :: cs =>
    if c = sep then [] :: pySplit sep cs
    else
      match pySplit sep cs with
      | [] => [[c]]
      | r :: rs => (c :: r) :: rs

/-- The /roll slash command body: split the input on commas, parse and roll
each piece, and join the result lines with newlines. -/
def roll_dice_command (randint : Nat → Nat → Nat → Int) (dice : String) :
    Except Unit String :=
  (parse_roll randint (pySplit ',' dice.toList)).map
    (fun rs => String.intercalate "\n" rs)

/-- BASE_DC of CogAttacks.py. -/
def BASE_DC : Int := 8

/-- PROF_INIT_BONUS of CogAttacks.py. -/
def PROF_INIT_BONUS : Int := 2

/-- ABILITY_DEFAULT of CogAttacks.py. -/
def ABILITY_DEFAULT : Int := 10

/-- calc_proficiency_bonus: 0 below level 1, otherwise the floor of
(level - 1) / 4 plus the base 2; Int.fdiv is the floor division that
math.floor of the true quotient computes. -/
def calc_proficiency_bonus (char_level : Int) (modifiers : Int) : Int :=
  if char_level < 1 then 0 + modifiers
  else (char_level - 1).fdiv 4 + PROF_INIT_BONUS + modifiers

/-- calc_ability_modifier: floor of (score - 10) / 2. -/
def calc_ability_modifier (ability_score : Int) (modifiers : Int) : Int :=
  (ability_score - ABILITY_DEFAULT).fdiv 2 + modifiers

/-- Python str.lower restricted to the ASCII attribute names used here. -/
def pyLower (s : String) : String :=
  String.mk (s.toList.map Char.toLower)

/-- Python bool used as an int factor (True * x = x, False * x = 0). -/
def boolInt (b : Bool) : Int := if b then 1 else 0

/-- The character row the attack flow reads: its level and the dictionary
lookup of an ability score by (lower-cased) column name. -/
structure DndCharacter where
  level : Int
  scores : String → Int

/-- The attack row: the two roll-requirement booleans, the attack attribute,
the saving-throw target attribute, the proficiency mark, the flat modifiers,
and the damage expression handed to parse_roll. -/
structure DndAttack where
  attack_roll : Bool
  saving_throw : Bool
  attrName : String
  target : String
  proficient : Bool
  modifiers : Int
  damage_roll : String

/-- The total bonus computed by show_attack: ability modifier of the attack's
attribute, plus proficiency bonus multiplied by the proficient boolean, plus
the attack's flat modifiers. -/
def attack_total_bonus (ch : DndCharacter) (atk : DndAttack) : Int :=
  calc_ability_modifier (ch.scores (pyLower atk.attrName)) 0
    + calc_proficiency_bonus ch.level 0 * boolInt atk.proficient
    + atk.modifiers

/-- The save DC computed by show_save: the same three summands plus BASE_DC. -/
def save_dc_total (ch : DndCharacter) (atk : DndAttack) : Int :=
  calc_ability_modifier (ch.scores (pyLower atk.attrName)) 0
    + calc_proficiency_bonus ch.level 0 * boolInt atk.proficient
    + atk.modifiers + BASE_DC

/-- The bonus string show_attack builds: a plus sign prefix when the bonus is
nonnegative, then str of the bonus. -/
def total_bonus_str (tb : Int) : List Char :=
  ((if 0 ≤ tb then "+" else "") ++ toString tb).toList

/-- The message show_attack appends: the formatted 1d20 roll with the total
bonus, then the hit question. -/
def show_attack_msg (randint : Nat → Nat → Nat → Int) (ch : DndCharacter)
    (atk : DndAttack) : String :=
  let tb := attack_total_bonus ch atk
  let rt := roll_dice randint 1 20 tb
  create_result_string rt.1 rt.2 1 20 tb (some (total_bonus_str tb))
    ++ "\nDoes your attack hit?"

/-- The message show_save appends, displaying the target attribute and DC. -/
def show_save_msg (ch : DndCharacter) (atk : DndAttack) : String :=
  "Did your target fail their saving throw? (**" ++ atk.target
    ++ " Save DC: " ++ toString (save_dc_total ch atk) ++ "**)"

/-- The steps of the attack-resolution confirmation view. -/
inductive ResStep where
  | idle | attackPrompt | savePrompt | damageDone | failedDone
deriving DecidableEq

/-- The mutable data of an AttackConfirmView: which prompt is live, the _hit
and _failed flags, and the accumulated _content transcript. -/
structure ResState where
  st : ResStep
  hitFlag : Bool
  failFlag : Bool
  content : String
deriving DecidableEq

/-- A fresh AttackConfirmView: roll button shown, both flags False. -/
def init_resolution (init_content : String) : ResState :=
  ⟨ResStep.idle, false, false, init_content⟩

/-- The caller events: the roll button, the attack-hit answer, and the
save-failed answer. -/
inductive ResEvent where
  | rollButton
  | attackAnswer (yes : Bool)
  | saveAnswer (yes : Bool)
deriving DecidableEq

/-- roll_damage: parse and roll the damage expression as a one-element batch
and append its first line.  An exception of parse_roll (or an empty result,
which cannot happen) is an uncaught error. -/
def roll_damage (randint : Nat → Nat → Nat → Int) (atk : DndAttack)
    (s : ResState) : Except Unit ResState :=
  match parse_roll randint [atk.damage_roll.toList] with
  | Except.error _ => Except.error ()
  | Except.ok [] => Except.error ()
  | Except.ok (r0 :: _) =>
    Except.ok { s with st := ResStep.damageDone, content := s.content ++ "\n" ++ r0 }

/-- One step of the AttackConfirmView: the three callbacks, dispatched on the
live prompt; an event no live button can raise is a no-op. -/
def resolution_step (randint : Nat → Nat → Nat → Int) (ch : DndCharacter)
    (atk : DndAttack) (s : ResState) (e : ResEvent) : Except Unit ResState :=
  match s.st, e with
  | ResStep.idle, ResEvent.rollButton =>
    if atk.attack_roll then
      Except.ok { s with st := ResStep.attackPrompt,
                         content := s.content ++ "\n" ++ show_attack_msg randint ch atk }
    else if atk.saving_throw then
      Except.ok { s with st := ResStep.savePrompt,
                         content := s.content ++ "\n" ++ show_save_msg ch atk }
    else
      roll_damage randint atk s
  | ResStep.attackPrompt, ResEvent.attackAnswer yes =>
    if atk.saving_throw && yes then
      Except.ok { s with st := ResStep.savePrompt, hitFlag := yes,
                         content := s.content ++ "\n" ++ show_save_msg ch atk }
    else if yes then
      roll_damage randint atk { s with hitFlag := yes }
    else
      Except.ok { s with st := ResStep.failedDone, hitFlag := yes,
                         content := s.content ++ "\nD:" }
  | ResStep.savePrompt, ResEvent.saveAnswer yes =>
    if yes then
      roll_damage randint atk { s with failFlag := yes }
    else
      Except.ok { s with st := ResStep.failedDone, failFlag := yes,
                         content := s.content ++ "\nD:" }
  | _, _ => Except.ok s

/-- The steps of the attack-creation view. -/
inductive WStep where
  | selectType | selectAttr | selectTarget | selectProf | modal | complete
deriving DecidableEq

/-- The mutable data of an AttackView: the live step, the locked-in roll-type
list, the two attributes, the proficiency flag, and the two modal fields.  The
source initialises the modifiers slot with the integer 0 and later overwrites
it with the modal's raw text; the slot is modelled as that text. -/
structure WizState where
  step : WStep
  types : List String
  attr : String
  target : String
  proficient : Bool
  modifiers : String
  damage_roll : String
deriving DecidableEq

/-- A fresh AttackView: roll-type dropdown live, attributes defaulting to the
first entry of ATTRIBUTES. -/
def init_wizard : WizState :=
  { step := WStep.selectType, types := [], attr := "Strength",
    target := "Strength", proficient := false, modifiers := "0",
    damage_roll := "" }

/-- The caller events of the wizard: the dropdown selection (a list of one or
two labels), an attribute button, a target button, a proficiency answer, and
the modal submission with its one or two text fields. -/
inductive WEvent where
  | typeSel (values : List String)
  | attrSel (a : String)
  | targetSel (a : String)
  | profSel (yes : Bool)
  | modalSubmit (field0 field1 : String)
deriving DecidableEq

/-- One step of the AttackView: the five callbacks.  The dropdown callback
collapses any selection containing Neither to the singleton and then branches;
the attribute callback branches on whether Saving Throw was selected; the
modal callback reads one field when Neither was selected, two otherwise.
Events for buttons that are not live are no-ops. -/
def wizard_step (s : WizState) (e : WEvent) : WizState :=
  match s.step, e with
  | WStep.selectType, WEvent.typeSel values =>
    let ts := if values.contains "Neither" then ["Neither"] else values
    if ts.contains "Neither" then
      { s with types := ts, step := WStep.selectProf }
    else
      { s with types := ts, step := WStep.selectAttr }
  | WStep.selectAttr, WEvent.attrSel a =>
    if s.types.contains "Saving Throw" then
      { s with attr := a, step := WStep.selectTarget }
    else
      { s with attr := a, step := WStep.selectProf }
  | WStep.selectTarget, WEvent.targetSel a =>
    { s with target := a, step := WStep.selectProf }
  | WStep.selectProf, WEvent.profSel b =>
    { s with proficient := b, step := WStep.modal }
  | WStep.modal, WEvent.modalSubmit f0 f1 =>
    if s.types.contains "Neither" then
      { s with damage_roll := f0, step := WStep.complete }
    else
      { s with modifiers := f0, damage_roll := f1, step := WStep.complete }
  | _, _ => s

/-- The list of steps visited by a sequence of wizard events, in order. -/
def wizard_trace (s : WizState) : List WEvent → List WStep
  | [] => []
  | e :: es =>
    let s' := wizard_step s e
    s'.step :: wizard_trace s' es

/-! ## Helper lemmas -/

/-- parse_roll_aux produces exactly one line per sub-expression when it does
not raise. -/
theorem parse_roll_aux_length (randint : Nat → Nat → Nat → Int) :
    ∀ (specs : List (List Char)) (k : Nat) (rs : List String),
      parse_roll_aux randint specs k = Except.ok rs → rs.length = specs.length := by
  intro specs
  induction specs with
  | nil =>
    intro k rs h
    simp only [parse_roll_aux] at h
    cases h
    rfl
  | cons s rest ih =>
    intro k rs h
    simp only [parse_roll_aux] at h
    cases hps : parse_spec s with
    | error e => simp only [hps] at h; exact Except.noConfusion h
    | ok o =>
      cases o with
      | errSpec =>
        simp only [hps] at h
        cases hrec : parse_roll_aux randint rest k with
        | error e => simp only [hrec, Except.map] at h; exact Except.noConfusion h
        | ok rs' =>
          simp only [hrec, Except.map, Except.ok.injEq] at h
          subst h
          simp [ih k rs' hrec]
      | errType =>
        simp only [hps] at h
        cases hrec : parse_roll_aux randint rest k with
        | error e => simp only [hrec, Except.map] at h; exact Except.noConfusion h
        | ok rs' =>
          simp only [hrec, Except.map, Except.ok.injEq] at h
          subst h
          simp [ih k rs' hrec]
      | okSpec n t mo ms =>
        simp only [hps] at h
        cases hrec : parse_roll_aux randint rest (k + n) with
        | error e => simp only [hrec, Except.map] at h; exact Except.noConfusion h
        | ok rs' =>
          simp only [hrec, Except.map, Except.ok.injEq] at h
          subst h
          simp [ih (k + n) rs' hrec]

/-- A successful roll_damage lands in the damage step. -/
theorem roll_damage_st (randint : Nat → Nat → Nat → Int) (atk : DndAttack)
    (s s' : ResState) (h : roll_damage randint atk s = Except.ok s') :
    s'.st = ResStep.damageDone := by
  unfold roll_damage at h
  cases hp : parse_roll randint [atk.damage_roll.toList] with
  | error e => rw [hp] at h; cases h
  | ok rs =>
    rw [hp] at h
    cases rs with
    | nil => cases h
    | cons r0 rtl => cases h; rfl

/-! ## C1 -/

/-- C1: for every random source obeying the randint contract, every count at
least 1, faces at least 1 and any integer modifier, roll_dice returns exactly
count rolls, each in the closed interval from 1 to faces, and a total exactly
equal to the sum of the rolls plus the modifier, with no clamping. -/
theorem cantrip_C1_roll_dice_spec (randint : Nat → Nat → Nat → Int)
    (num_dice dice_type : Nat) (modifier : Int)
    (hrand : ∀ (lo hi i : Nat), lo ≤ hi →
      (lo : Int) ≤ randint lo hi i ∧ randint lo hi i ≤ (hi : Int))
    (hn : 1 ≤ num_dice) (ht : 1 ≤ dice_type) :
    (roll_dice randint num_dice dice_type modifier).1.length = num_dice ∧
    (∀ r ∈ (roll_dice randint num_dice dice_type modifier).1,
        1 ≤ r ∧ r ≤ (dice_type : Int)) ∧
    (roll_dice randint num_dice dice_type modifier).2
      = (roll_dice randint num_dice dice_type modifier).1.sum + modifier := by
  refine ⟨by simp [roll_dice], ?_, ?_⟩
  · intro r hr
    simp only [roll_dice, List.mem_map, List.mem_range] at hr
    obtain ⟨i, _, rfl⟩ := hr
    have h := hrand 1 dice_type i ht
    constructor
    · exact le_trans (by norm_num) h.1
    · exact h.2
  · by_cases hm : modifier = 0
    · simp [roll_dice, hm]
    · simp [roll_dice, hm]

/-- C1 witness: a concrete source, two d6 dice and modifier -10 (the total
goes negative). -/
theorem cantrip_C1_witness :
    (roll_dice (fun lo _ _ => (lo : Int)) 2 6 (-10)).1.length = 2 ∧
    (∀ r ∈ (roll_dice (fun lo _ _ => (lo : Int)) 2 6 (-10)).1,
        1 ≤ r ∧ r ≤ ((6 : Nat) : Int)) ∧
    (roll_dice (fun lo _ _ => (lo : Int)) 2 6 (-10)).2
      = (roll_dice (fun lo _ _ => (lo : Int)) 2 6 (-10)).1.sum + (-10) :=
  cantrip_C1_roll_dice_spec (fun lo _ _ => (lo : Int)) 2 6 (-10)
    (fun lo hi i h => ⟨le_refl _, by show ((lo : Nat) : Int) ≤ ((hi : Nat) : Int); exact_mod_cast h⟩)
    (by decide) (by decide)

/-! ## C2 -/

/-- C2 (code bug): the batch examples of the claim do hold, but a matched
sub-expression whose modifier carries a tab between the sign and the digits
makes the int conversion raise, aborting the whole batch with no outcomes:
only space characters are removed before the conversion, while the pattern
admits any whitespace there. -/
theorem cantrip_C2_batch_and_tab_abort :
    parse_roll (fun lo _ _ => (lo : Int)) [("1d6+2").toList, (" 3d7").toList]
      = Except.ok ["You rolled 1d6+2: [1] + 2 = 3", invalid_type_msg] ∧
    parse_roll (fun lo _ _ => (lo : Int)) [("banana").toList]
      = Except.ok [invalid_spec_msg] ∧
    parse_roll (fun lo _ _ => (lo : Int)) [("1d6+\t2").toList]
      = Except.error () := by
  exact ⟨rfl, rfl, rfl⟩

/-! ## C3 -/

/-- C3 counterexample: the parser accepts the expression 0d6 — a roll line is
produced, not an error message — with a count of 0, violating the claimed
invariant that every accepted specification has count at least 1. -/
theorem cantrip_C3_zero_count_accepted :
    parse_spec ("0d6").toList = Except.ok (ParseOutcome.okSpec 0 6 0 none) ∧
    parse_roll (fun lo _ _ => (lo : Int)) [("0d6").toList]
      = Except.ok ["You rolled 0d6: [] + 0 = 0"] := by
  exact ⟨rfl, rfl⟩

/-- C3 amended: every accepted specification has faces in the allowed set,
and the count defaults to 1 exactly when the count digits are omitted (an
explicit count, including 0, is taken as written, so only count at least 0 is
guaranteed); an expression violating the faces constraint is rejected with the
invalid-type message without aborting sibling expressions of the batch. -/
theorem cantrip_C3_amended :
    (∀ s m r n t mo ms,
        re_match (pyStrip s) = some (m, r) →
        parse_spec s = Except.ok (ParseOutcome.okSpec n t mo ms) →
        valid_dice_types.contains t = true ∧
          (m.num_dice = [] → n = 1) ∧
          (m.num_dice ≠ [] → n = digitsToNat m.num_dice)) ∧
    (∀ randint k s rest, parse_spec s = Except.ok ParseOutcome.errType →
        parse_roll_aux randint (s :: rest) k
          = (parse_roll_aux randint rest k).map (fun rs => invalid_type_msg :: rs)) := by
  constructor
  · intro s m r n t mo ms hre h
    simp only [parse_spec, hre] at h
    cases hm : m.modifier with
    | none =>
      simp only [hm] at h
      by_cases hv : valid_dice_types.contains (digitsToNat m.dice_type) = true
      · rw [if_pos hv] at h
        simp only [Except.ok.injEq, ParseOutcome.okSpec.injEq] at h
        obtain ⟨h1, h2, h3, h4⟩ := h
        subst h1; subst h2
        refine ⟨hv, ?_, ?_⟩
        · intro hnil; simp [hnil]
        · intro hnil; simp [hnil]
      · rw [if_neg hv] at h
        simp at h
    | some mstr =>
      simp only [hm] at h
      cases hpi : pyIntOpt (mstr.filter (fun c => c ≠ ' ')) with
      | none => simp only [hpi] at h; exact Except.noConfusion h
      | some mo' =>
        simp only [hpi] at h
        by_cases hv : valid_dice_types.contains (digitsToNat m.dice_type) = true
        · rw [if_pos hv] at h
          simp only [Except.ok.injEq, ParseOutcome.okSpec.injEq] at h
          obtain ⟨h1, h2, h3, h4⟩ := h
          subst h1; subst h2
          refine ⟨hv, ?_, ?_⟩
          · intro hnil; simp [hnil]
          · intro hnil; simp [hnil]
        · rw [if_neg hv] at h
          simp at h
  · intro randint k s rest h
    simp only [parse_roll_aux, h]

/-- C3 amendment witness: the accepted spec 2d8+1 (faces 8 allowed, explicit
count 2) and the invalid-type entry 3d7 leaving its sibling list intact. -/
theorem cantrip_C3_witness :
    (valid_dice_types.contains 8 = true ∧
      ((⟨['2'], ['8'], some ['+', '1']⟩ : RollMatch).num_dice = [] → 2 = 1) ∧
      ((⟨['2'], ['8'], some ['+', '1']⟩ : RollMatch).num_dice ≠ [] →
        2 = digitsToNat (⟨['2'], ['8'], some ['+', '1']⟩ : RollMatch).num_dice)) ∧
    parse_roll_aux (fun lo _ _ => (lo : Int)) [("3d7").toList] 0
      = (parse_roll_aux (fun lo _ _ => (lo : Int)) [] 0).map
          (fun rs => invalid_type_msg :: rs) :=
  ⟨cantrip_C3_amended.1 ("2d8+1").toList ⟨['2'], ['8'], some ['+', '1']⟩ []
      2 8 1 (some ['+', '1']) (by rfl) (by rfl),
    cantrip_C3_amended.2 (fun lo _ _ => (lo : Int)) 0 ("3d7").toList [] (by rfl)⟩

/-! ## C4 -/

/-- C4 (code bug): the grammar examples hold as claimed — 1d6+2 gives count 1,
faces 6, modifier 2; d20-1 gives count 1, faces 20, modifier -1; 3d10 gives
count 3, faces 10, modifier 0; and a space between the modifier's sign and its
digits is removed before conversion (3d 10 - 3 gives modifier -3) — but the
normalization claim fails for the other whitespace the pattern tolerates: a
tab there survives the space-only replace and the conversion raises. -/
theorem cantrip_C4_grammar_examples_and_tab_failure :
    parse_spec ("1d6+2").toList
      = Except.ok (ParseOutcome.okSpec 1 6 2 (some ['+', '2'])) ∧
    parse_spec ("d20-1").toList
      = Except.ok (ParseOutcome.okSpec 1 20 (-1) (some ['-', '1'])) ∧
    parse_spec ("3d10").toList
      = Except.ok (ParseOutcome.okSpec 3 10 0 none) ∧
    parse_spec ("3d 10 - 3").toList
      = Except.ok (ParseOutcome.okSpec 3 10 (-3) (some ['-', ' ', '3'])) ∧
    parse_spec ("1d6+\t2").toList = Except.error () := by
  exact ⟨rfl, rfl, rfl, rfl, rfl⟩

/-! ## C5 -/

/-- C5: answering the attack-hit prompt with No always lands in the failed
terminal step with the failure notice appended — independently of whether the
attack also requires a saving throw — the failed step accepts no further
transitions, and the saving-throw prompt is only ever entered on a confirmed
hit or, when no attack roll is required, directly from the initial roll. -/
theorem cantrip_C5_miss_terminates_failed :
    (∀ randint ch atk (s : ResState), s.st = ResStep.attackPrompt →
        resolution_step randint ch atk s (ResEvent.attackAnswer false)
          = Except.ok { s with st := ResStep.failedDone, hitFlag := false,
                               content := s.content ++ "\nD:" }) ∧
    (∀ randint ch atk (s : ResState) e, s.st = ResStep.failedDone →
        resolution_step randint ch atk s e = Except.ok s) ∧
    (∀ randint ch atk (s : ResState) e s',
        resolution_step randint ch atk s e = Except.ok s' →
        s'.st = ResStep.savePrompt → s.st ≠ ResStep.savePrompt →
        atk.saving_throw = true ∧
          ((s.st = ResStep.attackPrompt ∧ e = ResEvent.attackAnswer true) ∨
            (s.st = ResStep.idle ∧ e = ResEvent.rollButton ∧
              atk.attack_roll = false))) := by
  refine ⟨?_, ?_, ?_⟩
  · intro randint ch atk s h
    obtain ⟨st, hf, ff, ct⟩ := s
    cases h
    simp [resolution_step]
  · intro randint ch atk s e h
    obtain ⟨st, hf, ff, ct⟩ := s
    cases h
    cases e <;> simp [resolution_step]
  · intro randint ch atk s e s' hstep hsave hne
    obtain ⟨st, hf, ff, ct⟩ := s
    cases st with
    | savePrompt => exact absurd rfl hne
    | idle =>
      cases e with
      | rollButton =>
        simp only [resolution_step] at hstep
        by_cases ha : atk.attack_roll = true
        · simp only [ha, if_true] at hstep
          obtain rfl := Except.ok.inj hstep
          simp at hsave
        · simp only [if_neg ha] at hstep
          by_cases hs : atk.saving_throw = true
          · simp only [hs, if_true] at hstep
            obtain rfl := Except.ok.inj hstep
            exact ⟨hs, Or.inr ⟨rfl, rfl, by simpa using ha⟩⟩
          · simp only [if_neg hs] at hstep
            have hd := roll_damage_st _ _ _ _ hstep
            rw [hd] at hsave
            cases hsave
      | attackAnswer yes =>
        simp only [resolution_step] at hstep
        obtain rfl := Except.ok.inj hstep
        simp at hsave
      | saveAnswer yes =>
        simp only [resolution_step] at hstep
        obtain rfl := Except.ok.inj hstep
        simp at hsave
    | attackPrompt =>
      cases e with
      | rollButton =>
        simp only [resolution_step] at hstep
        obtain rfl := Except.ok.inj hstep
        simp at hsave
      | attackAnswer yes =>
        simp only [resolution_step] at hstep
        cases yes with
        | false =>
          simp only [Bool.and_false] at hstep
          simp only [show (false = true) = False by simp, if_false] at hstep
          obtain rfl := Except.ok.inj hstep
          simp at hsave
        | true =>
          by_cases hs : atk.saving_throw = true
          · simp only [hs, Bool.and_true, if_true] at hstep
            obtain rfl := Except.ok.inj hstep
            exact ⟨hs, Or.inl ⟨rfl, rfl⟩⟩
          · have hs' : atk.saving_throw = false := by simpa using hs
            simp only [hs', Bool.and_true] at hstep
            simp only [show (false = true) = False by simp, if_false,
              show (true = true) = True by simp, if_true] at hstep
            have hd := roll_damage_st _ _ _ _ hstep
            rw [hd] at hsave
            cases hsave
      | saveAnswer yes =>
        simp only [resolution_step] at hstep
        obtain rfl := Except.ok.inj hstep
        simp at hsave
    | damageDone =>
      cases e <;>
        (simp only [resolution_step] at hstep;
          obtain rfl := Except.ok.inj hstep;
          simp at hsave)
    | failedDone =>
      cases e <;>
        (simp only [resolution_step] at hstep;
          obtain rfl := Except.ok.inj hstep;
          simp at hsave)

/-- A character and attack used to instantiate the flow theorems. -/
def sampleChar : DndCharacter := ⟨5, fun _ => 16⟩

/-- An attack requiring both an attack roll and a saving throw. -/
def sampleAttack : DndAttack := ⟨true, true, "Strength", "Dexterity", true, 1, "2d6"⟩

/-- C5 witness: a miss on an attack that also requires a saving throw still
terminates in the failed step. -/
theorem cantrip_C5_witness :
    resolution_step (fun lo _ _ => (lo : Int)) sampleChar sampleAttack
        ⟨ResStep.attackPrompt, false, false, "X uses Y!"⟩
        (ResEvent.attackAnswer false)
      = Except.ok { st := ResStep.failedDone, hitFlag := false, failFlag := false,
                    content := "X uses Y!" ++ "\nD:" } :=
  cantrip_C5_miss_terminates_failed.1 (fun lo _ _ => (lo : Int)) sampleChar
    sampleAttack ⟨ResStep.attackPrompt, false, false, "X uses Y!"⟩ rfl

/-! ## C6 -/

/-- C6: the attack-roll step's total bonus is the ability modifier of the
attack's attribute plus the proficiency bonus exactly when proficient plus the
flat modifiers; the roll made with it is exactly one d20 draw with the bonus
added to the total; entering the two prompts from the initial state appends
precisely those messages; and the save DC is the same bonus plus the constant
8. -/
theorem cantrip_C6_bonus_and_dc :
    (∀ ch atk, attack_total_bonus ch atk
        = calc_ability_modifier (ch.scores (pyLower atk.attrName)) 0
          + (if atk.proficient then calc_proficiency_bonus ch.level 0 else 0)
          + atk.modifiers) ∧
    (∀ ch atk, save_dc_total ch atk = attack_total_bonus ch atk + BASE_DC
        ∧ BASE_DC = 8) ∧
    (∀ randint ch atk,
        roll_dice randint 1 20 (attack_total_bonus ch atk)
          = ([randint 1 20 0], randint 1 20 0 + attack_total_bonus ch atk)) ∧
    (∀ (randint : Nat → Nat → Nat → Int) ch atk,
        (∀ (lo hi i : Nat), lo ≤ hi →
          (lo : Int) ≤ randint lo hi i ∧ randint lo hi i ≤ (hi : Int)) →
        ∀ r ∈ (roll_dice randint 1 20 (attack_total_bonus ch atk)).1,
          1 ≤ r ∧ r ≤ 20) ∧
    (∀ randint ch atk (s : ResState), s.st = ResStep.idle →
        atk.attack_roll = true →
        resolution_step randint ch atk s ResEvent.rollButton
          = Except.ok { s with st := ResStep.attackPrompt,
                               content := s.content ++ "\n"
                                 ++ show_attack_msg randint ch atk }) ∧
    (∀ randint ch atk (s : ResState), s.st = ResStep.idle →
        atk.attack_roll = false → atk.saving_throw = true →
        resolution_step randint ch atk s ResEvent.rollButton
          = Except.ok { s with st := ResStep.savePrompt,
                               content := s.content ++ "\n"
                                 ++ show_save_msg ch atk }) := by
  refine ⟨?_, ?_, ?_, ?_, ?_, ?_⟩
  · intro ch atk
    cases hp : atk.proficient <;> simp [attack_total_bonus, boolInt, hp]
  · intro ch atk
    exact ⟨rfl, rfl⟩
  · intro randint ch atk
    by_cases hb : attack_total_bonus ch atk = 0 <;>
      simp [roll_dice, hb, show List.range 1 = [0] from rfl]
  · intro randint ch atk hrand r hr
    simp only [roll_dice, show List.range 1 = [0] from rfl, List.map_cons,
      List.map_nil, List.mem_singleton] at hr
    subst hr
    have h := hrand 1 20 0 (by norm_num)
    exact ⟨by exact_mod_cast h.1, by exact_mod_cast h.2⟩
  · intro randint ch atk s h ha
    obtain ⟨st, hf, ff, ct⟩ := s
    cases h
    simp [resolution_step, ha]
  · intro randint ch atk s h ha hs
    obtain ⟨st, hf, ff, ct⟩ := s
    cases h
    simp [resolution_step, ha, hs]

/-- C6 witness: the step from the initial state with the sample attack and
character, under the floor random source. -/
theorem cantrip_C6_witness :
    resolution_step (fun lo _ _ => (lo : Int)) sampleChar sampleAttack
        ⟨ResStep.idle, false, false, "go"⟩ ResEvent.rollButton
      = Except.ok { st := ResStep.attackPrompt, hitFlag := false,
                    failFlag := false,
                    content := ("go" : String) ++ "\n"
                      ++ show_attack_msg (fun lo _ _ => (lo : Int)) sampleChar
                          sampleAttack } :=
  cantrip_C6_bonus_and_dc.2.2.2.2.1 (fun lo _ _ => (lo : Int)) sampleChar
    sampleAttack ⟨ResStep.idle, false, false, "go"⟩ rfl rfl

/-! ## C7 -/

/-- C7: the wizard's forward walk — a roll-type selection containing Neither
collapses to the singleton Neither and jumps straight to the proficiency step,
skipping attribute and target selection; selecting both Attack Roll and Saving
Throw visits attribute selection, then saving-throw-target selection, then
proficiency, in that order; selecting Attack Roll alone visits attribute
selection and then proficiency, skipping the target step. -/
theorem cantrip_C7_wizard_walk :
    (∀ values : List String, values.contains "Neither" = true →
        (wizard_step init_wizard (WEvent.typeSel values)).types = ["Neither"] ∧
        (wizard_step init_wizard (WEvent.typeSel values)).step = WStep.selectProf) ∧
    (∀ (values : List String) (a t : String) (b : Bool),
        values.contains "Attack Roll" = true →
        values.contains "Saving Throw" = true →
        values.contains "Neither" = false →
        wizard_trace init_wizard
            [WEvent.typeSel values, WEvent.attrSel a, WEvent.targetSel t,
              WEvent.profSel b]
          = [WStep.selectAttr, WStep.selectTarget, WStep.selectProf, WStep.modal]) ∧
    (∀ (values : List String) (a : String) (b : Bool),
        values.contains "Attack Roll" = true →
        values.contains "Saving Throw" = false →
        values.contains "Neither" = false →
        wizard_trace init_wizard
            [WEvent.typeSel values, WEvent.attrSel a, WEvent.profSel b]
          = [WStep.selectAttr, WStep.selectProf, WStep.modal]) := by
  refine ⟨?_, ?_, ?_⟩
  · intro values hv
    have hv' : "Neither" ∈ values := by simpa using hv
    constructor <;> simp [wizard_step, init_wizard, hv']
  · intro values a t b h1 h2 h3
    have h2' : "Saving Throw" ∈ values := by simpa using h2
    have h3' : "Neither" ∉ values := by simpa using h3
    simp [wizard_trace, wizard_step, init_wizard, h2', h3']
  · intro values a b h1 h2 h3
    have h2' : "Saving Throw" ∉ values := by simpa using h2
    have h3' : "Neither" ∉ values := by simpa using h3
    simp [wizard_trace, wizard_step, init_wizard, h2', h3']

/-- C7 witness: the three concrete selections. -/
theorem cantrip_C7_witness :
    ((wizard_step init_wizard (WEvent.typeSel ["Attack Roll", "Neither"])).types
        = ["Neither"] ∧
      (wizard_step init_wizard (WEvent.typeSel ["Attack Roll", "Neither"])).step
        = WStep.selectProf) ∧
    wizard_trace init_wizard
        [WEvent.typeSel ["Attack Roll", "Saving Throw"], WEvent.attrSel "Dexterity",
          WEvent.targetSel "Wisdom", WEvent.profSel true]
      = [WStep.selectAttr, WStep.selectTarget, WStep.selectProf, WStep.modal] ∧
    wizard_trace init_wizard
        [WEvent.typeSel ["Attack Roll"], WEvent.attrSel "Strength",
          WEvent.profSel false]
      = [WStep.selectAttr, WStep.selectProf, WStep.modal] :=
  ⟨cantrip_C7_wizard_walk.1 ["Attack Roll", "Neither"] (by rfl),
    cantrip_C7_wizard_walk.2.1 ["Attack Roll", "Saving Throw"] "Dexterity"
      "Wisdom" true (by rfl) (by rfl) (by rfl),
    cantrip_C7_wizard_walk.2.2 ["Attack Roll"] "Strength" false
      (by rfl) (by rfl) (by rfl)⟩

/-! ## C8 -/

/-- C8: the ability modifier is the mathematical floor of (score - 10) / 2
(characterised by the two floor inequalities, with the claimed sample values),
and the proficiency bonus is floor((level - 1) / 4) + 2 for level at least 1
and 0 below level 1 (again with the claimed sample values). -/
theorem cantrip_C8_floor_formulas :
    (∀ score : Int, 2 * calc_ability_modifier score 0 ≤ score - 10 ∧
        score - 10 < 2 * calc_ability_modifier score 0 + 2) ∧
    calc_ability_modifier 10 0 = 0 ∧
    calc_ability_modifier 8 0 = -1 ∧
    calc_ability_modifier 20 0 = 5 ∧
    (∀ level : Int, 1 ≤ level →
        4 * (calc_proficiency_bonus level 0 - 2) ≤ level - 1 ∧
        level - 1 < 4 * (calc_proficiency_bonus level 0 - 2) + 4) ∧
    (∀ level : Int, level < 1 → calc_proficiency_bonus level 0 = 0) ∧
    calc_proficiency_bonus 1 0 = 2 ∧
    calc_proficiency_bonus 5 0 = 3 ∧
    calc_proficiency_bonus 0 0 = 0 := by
  refine ⟨?_, by decide, by decide, by decide, ?_, ?_, by decide, by decide, by decide⟩
  · intro score
    unfold calc_ability_modifier ABILITY_DEFAULT
    rw [Int.fdiv_eq_ediv _ (by norm_num)]
    omega
  · intro level hl
    unfold calc_proficiency_bonus PROF_INIT_BONUS
    rw [if_neg (by omega)]
    rw [Int.fdiv_eq_ediv _ (by norm_num)]
    omega
  · intro level hl
    unfold calc_proficiency_bonus
    rw [if_pos hl]
    omega

/-- C8 witness: the floor inequalities at score 13 and level 7, and the
below-one clamp at level -3. -/
theorem cantrip_C8_witness :
    (2 * calc_ability_modifier 13 0 ≤ 13 - 10 ∧
      (13 : Int) - 10 < 2 * calc_ability_modifier 13 0 + 2) ∧
    (4 * (calc_proficiency_bonus 7 0 - 2) ≤ 7 - 1 ∧
      (7 : Int) - 1 < 4 * (calc_proficiency_bonus 7 0 - 2) + 4) ∧
    calc_proficiency_bonus (-3) 0 = 0 :=
  ⟨cantrip_C8_floor_formulas.1 13,
    cantrip_C8_floor_formulas.2.2.2.2.1 7 (by norm_num),
    cantrip_C8_floor_formulas.2.2.2.2.2.1 (-3) (by norm_num)⟩

/-! ## C9 -/

/-- C9 counterexample: for the input 1d6+0 the numeric modifier is 0, yet the
signed-modifier part is still shown after the faces — the display gates the
part on the presence of the modifier text, not on its value being nonzero. -/
theorem cantrip_C9_zero_modifier_shown :
    parse_roll (fun lo _ _ => (lo : Int)) [("1d6+0").toList]
      = Except.ok ["You rolled 1d6+0: [1] + 0 = 1"] := by
  rfl

/-- C9 amended: the roll line has the claimed shape except that the part after
the faces is shown exactly when a modifier capture is present — the capture
text trimmed at the ends, internal whitespace kept, even when its value is 0;
a non-raising batch yields one line per sub-expression with order preserved,
syntax errors render as their literal message, and the command joins the lines
with newlines. -/
theorem cantrip_C9_amended :
    (∀ rolls total n t mo ms, create_result_string rolls total n t mo (some ms)
        = "You rolled " ++ toString n ++ "d" ++ toString t
          ++ String.mk (pyStrip ms) ++ ": " ++ pyListRepr rolls ++ " "
          ++ (if 0 ≤ mo then "+" else "-") ++ " " ++ toString mo.natAbs
          ++ " = " ++ toString total) ∧
    (∀ rolls total n t mo, create_result_string rolls total n t mo none
        = "You rolled " ++ toString n ++ "d" ++ toString t ++ ": "
          ++ pyListRepr rolls ++ " " ++ (if 0 ≤ mo then "+" else "-") ++ " "
          ++ toString mo.natAbs ++ " = " ++ toString total) ∧
    (∀ randint (specs : List (List Char)) k rs,
        parse_roll_aux randint specs k = Except.ok rs →
        rs.length = specs.length) ∧
    (∀ randint k (s : List Char) rest,
        parse_spec s = Except.ok ParseOutcome.errSpec →
        parse_roll_aux randint (s :: rest) k
          = (parse_roll_aux randint rest k).map (fun rs => invalid_spec_msg :: rs)) ∧
    (∀ randint (dice : String) rs,
        parse_roll randint (pySplit ',' dice.toList) = Except.ok rs →
        roll_dice_command randint dice = Except.ok (String.intercalate "\n" rs)) := by
  refine ⟨?_, ?_, ?_, ?_, ?_⟩
  · intro rolls total n t mo ms
    rfl
  · intro rolls total n t mo
    simp [create_result_string]
  · intro randint specs k rs h
    exact parse_roll_aux_length randint specs k rs h
  · intro randint k s rest h
    simp only [parse_roll_aux, h]
  · intro randint dice rs h
    simp only [roll_dice_command, h, Except.map]

/-- C9 amendment witness: a one-element batch gives one line, and the command
output joins it. -/
theorem cantrip_C9_witness :
    (["You rolled 1d4: [1] + 0 = 1"] : List String).length
        = [("1d4").toList].length ∧
    roll_dice_command (fun lo _ _ => (lo : Int)) "1d4"
      = Except.ok (String.intercalate "\n" ["You rolled 1d4: [1] + 0 = 1"]) :=
  ⟨cantrip_C9_amended.2.2.1 (fun lo _ _ => (lo : Int)) [("1d4").toList] 0
      ["You rolled 1d4: [1] + 0 = 1"] (by rfl),
    cantrip_C9_amended.2.2.2.2 (fun lo _ _ => (lo : Int)) "1d4"
      ["You rolled 1d4: [1] + 0 = 1"] (by rfl)⟩

/-! ## C10 -/

/-- C10: a well-formed expression followed by trailing non-matching text is
accepted with the trailing text ignored — concretely, 1d6+2 nonsense parses
exactly as 1d6+2 does, and in general the match of 1d6+2 followed by any junk
not starting with a digit returns the same three captures with the junk as the
unconsumed rest. -/
theorem cantrip_C10_trailing_text :
    parse_spec ("1d6+2 nonsense").toList
      = Except.ok (ParseOutcome.okSpec 1 6 2 (some ['+', '2'])) ∧
    (∀ junk : List Char, (∀ c, junk.head? = some c → c.isDigit = false) →
        re_match (("1d6+2").toList ++ junk)
          = some (⟨['1'], ['6'], some ['+', '2']⟩, junk)) := by
  constructor
  · rfl
  · intro junk hj
    cases junk with
    | nil => rfl
    | cons c rest =>
      have hc : c.isDigit = false := hj c rfl
      show re_match ('1' :: 'd' :: '6' :: '+' :: '2' :: c :: rest)
        = some (⟨['1'], ['6'], some ['+', '2']⟩, c :: rest)
      simp [re_match, spanP, isPySpace, hc]

/-- C10 witness: junk starting with the letter x is ignored by the match. -/
theorem cantrip_C10_witness :
    re_match (("1d6+2").toList ++ ['x', '!'])
      = some (⟨['1'], ['6'], some ['+', '2']⟩, ['x', '!']) :=
  cantrip_C10_trailing_text.2 ['x', '!']
    (by intro c h; injection h with h'; subst h'; rfl)
